import Mathlib

/-!
Shallow embedding of the authentication / authorization core of the
`daryakut/mern-blog` repository (Express backend in `src/api/models/User.js`,
mongoose Post schema in `src/unnamed/part_000`), together with theorems
settling the specified properties of that core.

Conventions of the embedding:
* Mongo ObjectIds are modelled as `Nat`; their string form (as embedded in
  JWT payloads and compared by `post.author.toString() !== info.userId`)
  is `toString`.
* The document store is a `List` of documents; `Model.create` appends,
  `findById` / `findOne` are `List.find?`, `save` replaces by id.
* Each Express handler is a function from its request data (body fields,
  cookie, uploaded file) and the ambient state (user store, post store,
  filesystem) to a response paired with the successor state.
* A response is `Resp α`: either `err status message` (the exact status
  code and error string the handler sends) or `ok payload`.
-/

namespace MernBlog

/-- The identity payload embedded in a session token:
`{ userId: userDoc._id, userName: userDoc.userName }` as signed at
`User.js:60-61` and `User.js:89-90`. `userId` is the string form of the
ObjectId (JSON serialization stringifies it). -/
structure Claim where
  userId : String
  userName : String
deriving DecidableEq, Repr

/-- The JSON serialization of a claim inside a token.  Field order fixed,
distinct claims serialize distinctly. -/
def serializeClaim (c : Claim) : String :=
  "\x7buserId:" ++ c.userId ++ ",userName:" ++ c.userName ++ "\x7d"

/-- A simple polynomial rolling hash over a string, standing in for the
cryptographic digest inside the HMAC. -/
def strHash (s : String) : Nat :=
  s.data.foldl (fun h ch => h * 311 + ch.toNat) 7

/-- Modelled from the spec: the signature step of the Session Token Codec
(§4.1) — the `jsonwebtoken` library invoked at `User.js:60` / `User.js:117`
is an external dependency whose source is not in this repository.  The
signature is a keyed digest over the serialized claim. -/
def hmacSign (key : String) (msg : String) : Nat :=
  strHash (key ++ "#" ++ msg)

/-- A session token: the embedded claim together with its signature, the
shape produced by `jwt.sign(claim, secret, {})` (no expiry option is set
anywhere in the source). -/
structure Jwt where
  payload : Claim
  sig : Nat
deriving DecidableEq, Repr

/-- Modelled from the spec: `issue(claim, secretKey) -> token` (§4.1); the
call sites are `jwt.sign({userId, userName}, secret, {}, cb)` at
`User.js:60-64` and `User.js:89-93`. -/
def jwtSign (c : Claim) (key : String) : Jwt :=
  ⟨c, hmacSign key (serializeClaim c)⟩

/-- Modelled from the spec: `verify(token, secretKey) -> claim | fails`
(§4.1); the call sites are `jwt.verify(token, secret, cb)` at
`User.js:117`, `User.js:143` and `User.js:222`.  Verification recomputes
the signature over the embedded claim and compares; mismatch (a tampered
or garbage token) yields `none`. -/
def jwtVerify (t : Jwt) (key : String) : Option Claim :=
  if t.sig = hmacSign key (serializeClaim t.payload) then some t.payload else none

/-- A handler response: either an error with the exact HTTP status code and
error message the source sends via `res.status(s).json({error: msg})`, or a
success payload sent via `res.json(...)`. -/
inductive Resp (α : Type) where
  | err (status : Nat) (msg : String)
  | ok (a : α)
deriving DecidableEq, Repr

/-- A user document per `userSchema` (`User.js` model file, lines 4-7):
`userName` (unique) and the bcrypt-hashed password; `id` is the ObjectId. -/
structure UserDoc where
  id : Nat
  userName : String
  passwordHash : Nat
deriving DecidableEq, Repr

/-- Model of `bcrypt.hash(password, salt)` (`User.js:55-56`): a one-way
digest of the password; `bcrypt.compare` at `User.js:86` is equality of
digests. -/
def bcryptHash (password : String) : Nat :=
  strHash ("bcrypt$" ++ password)

/-- The attributes a handler passes to `res.cookie("token", token, opts)`.
Express defaults: `httpOnly = false`, no `sameSite`, when no options object
is given. -/
structure CookieOptions where
  httpOnly : Bool
  sameSite : Option String
deriving DecidableEq, Repr

/-- Success payload of register/login: the JSON body `{id, userName}` plus
the `token` cookie that is set on the same response, with its attributes. -/
structure AuthOk where
  id : Nat
  userName : String
  cookieToken : Jwt
  cookieOptions : CookieOptions
deriving DecidableEq, Repr

/-- A fresh ObjectId for a created document: above every id in use. -/
def freshId (ids : List Nat) : Nat :=
  ids.foldr (fun i m => max i m) 0 + 1

/-- `POST /register` (`User.js:51-79`).  Hashes the password, creates the
user (the `unique:true` index on `userName` makes `User.create` throw on a
duplicate), signs a token and sets it as a cookie with
`{httpOnly: true, sameSite: "strict"}` (`User.js:71`).  Any error thrown
inside the `try` — a bcrypt failure (`hashFails`) or the duplicate-key
error — is caught by the single `catch` and answered with
`400 {error: "Error registering user"}` (`User.js:75-78`). -/
def register (userName password : String) (hashFails : Bool) (key : String)
    (users : List UserDoc) : Resp AuthOk × List UserDoc :=
  if hashFails then
    (.err 400 "Error registering user", users)
  else if users.any (fun u => u.userName = userName) then
    (.err 400 "Error registering user", users)
  else
    let u : UserDoc := ⟨freshId (users.map (fun x => x.id)), userName, bcryptHash password⟩
    let token := jwtSign ⟨toString u.id, userName⟩ key
    (.ok ⟨u.id, userName, token, ⟨true, some "strict"⟩⟩, users ++ [u])

/-- `POST /login` (`User.js:82-108`).  Looks the user up by name
(`400 "User not found"` if absent), compares the password
(`400 "Invalid password"` on mismatch), then signs a token and sets it via
`res.cookie("token", token)` with NO options object (`User.js:99`), i.e.
Express defaults: not `httpOnly`, no `sameSite`. -/
def login (userName password : String) (key : String) (users : List UserDoc) :
    Resp AuthOk :=
  match users.find? (fun u => u.userName = userName) with
  | none => .err 400 "User not found"
  | some u =>
    if bcryptHash password = u.passwordHash then
      .ok ⟨u.id, u.userName, jwtSign ⟨toString u.id, u.userName⟩ key, ⟨false, none⟩⟩
    else
      .err 400 "Invalid password"

/-- `GET /profile` (`User.js:111-124`).  Missing cookie →
`403 {error: "Token is missing"}`; failed verification →
`403 {error: "Invalid token"}`; otherwise the decoded claim is returned. -/
def profile (cookieToken : Option Jwt) (key : String) : Resp Claim :=
  match cookieToken with
  | none => .err 403 "Token is missing"
  | some t =>
    match jwtVerify t key with
    | none => .err 403 "Invalid token"
    | some info => .ok info

/-- A post document per `PostSchema` (mongoose model, `timestamps: true`):
title, summary, content, optional cover path, the author reference (kept in
the string form the ownership check compares), and the `createdAt`
timestamp that `timestamps: true` maintains. -/
structure PostDoc where
  id : Nat
  title : String
  summary : String
  content : String
  cover : Option String
  author : String
  createdAt : Nat
deriving DecidableEq, Repr

/-- The multer upload metadata a handler reads from `req.file`:
`originalname` and the temporary `path` under `uploads/`. -/
structure UploadedFile where
  originalname : String
  path : String
deriving DecidableEq, Repr

/-- The observable filesystem state: the sequence of `fs.renameSync`
calls performed (old path, new path). -/
structure Fs where
  renames : List (String × String)
deriving DecidableEq, Repr

/-- `fs.renameSync(path, newPath)`: records the rename. -/
def renameSync (fs : Fs) (src dst : String) : Fs :=
  ⟨fs.renames ++ [(src, dst)]⟩

/-- Split a character list at every occurrence of `sep`, the semantics of
JavaScript's `String.prototype.split` with a one-character separator. -/
def splitOnChar (sep : Char) : List Char → List (List Char)
  | [] => [[]]
  | c :: cs =>
    if c = sep then
      [] :: splitOnChar sep cs
    else
      match splitOnChar sep cs with
      | [] => [[c]]
      | g :: gs => (c :: g) :: gs

/-- `originalname.split(".")` and taking `parts[parts.length - 1]`
(`User.js:152-153`, `User.js:210-211`). -/
def extOf (originalname : String) : String :=
  String.mk ((splitOnChar '.' originalname.data).getLastD [])

/-- The rename-by-extension step shared by `POST /post` (`User.js:150-157`)
and `PUT /post/:id` (`User.js:208-214`): when a file was uploaded, rename
`path` to `path ++ "." ++ ext` and report the new path. -/
def uploadRename (file : Option UploadedFile) (fs : Fs) : Option String × Fs :=
  match file with
  | none => (none, fs)
  | some f =>
    let newPath := f.path ++ "." ++ extOf f.originalname
    (some newPath, renameSync fs f.path newPath)

/-- Outcome of the ownership check. -/
inductive AuthzResult where
  | allow
  | forbidden
deriving DecidableEq, Repr

/-- The ownership check of `PUT /post/:id` (`User.js:237-241`):
`if (post.author.toString() !== info.userId)` reject, else proceed. -/
def authorize (identityUserId : String) (resourceAuthor : String) : AuthzResult :=
  if resourceAuthor ≠ identityUserId then .forbidden else .allow

/-- Request data of `POST /post`: body fields, the optional upload, and the
`token` cookie. -/
structure PostReq where
  title : String
  summary : String
  content : String
  file : Option UploadedFile
  cookieToken : Option Jwt
deriving Repr

/-- `POST /post` (`User.js:133-174`).  A missing cookie is a thrown
`Error("Token is missing")` that the surrounding `catch` turns into
`500 {error: "Internal server error"}` (`User.js:138-140`, `170-173`).
A failed verification answers `403 {error: "Invalid token"}`.  On success
the upload (if any) is renamed, `cover` is the new path with the
`uploads/` part stripped, and the post is created with
`author: info.userId`. -/
def postPost (req : PostReq) (key : String) (posts : List PostDoc) (fs : Fs)
    (now : Nat) : Resp PostDoc × List PostDoc × Fs :=
  match req.cookieToken with
  | none => (.err 500 "Internal server error", posts, fs)
  | some t =>
    match jwtVerify t key with
    | none => (.err 403 "Invalid token", posts, fs)
    | some info =>
      let r := uploadRename req.file fs
      let cover := r.1.map (fun p => p.replace "uploads/" "")
      let doc : PostDoc :=
        ⟨freshId (posts.map (fun x => x.id)), req.title, req.summary,
         req.content, cover, info.userId, now⟩
      (.ok doc, posts ++ [doc], r.2)

/-- Request data of `PUT /post/:id`: the `:id` route parameter, body
fields, optional upload, and the `token` cookie. -/
structure PutReq where
  paramId : Nat
  title : String
  summary : String
  content : String
  file : Option UploadedFile
  cookieToken : Option Jwt
deriving Repr

/-- `PUT /post/:id` (`User.js:206-258`), in source order: FIRST the upload
(if any) is renamed (`User.js:208-214`), only THEN the cookie is checked
(`403 "Token is missing"`), the token verified (`403 "Invalid token"`),
the post looked up (`404 "Post not found"`), ownership checked
(`403 "You are not the author of this post"`); on success title, summary
and content are overwritten, `cover` only when a file was uploaded, and
the document is saved back. -/
def putPost (req : PutReq) (key : String) (posts : List PostDoc) (fs : Fs) :
    Resp PostDoc × List PostDoc × Fs :=
  let r := uploadRename req.file fs
  match req.cookieToken with
  | none => (.err 403 "Token is missing", posts, r.2)
  | some t =>
    match jwtVerify t key with
    | none => (.err 403 "Invalid token", posts, r.2)
    | some info =>
      match posts.find? (fun p => p.id = req.paramId) with
      | none => (.err 404 "Post not found", posts, r.2)
      | some post =>
        match authorize info.userId post.author with
        | .forbidden => (.err 403 "You are not the author of this post", posts, r.2)
        | .allow =>
          let post' : PostDoc :=
            { post with
              title := req.title
              summary := req.summary
              content := req.content
              cover := match r.1 with
                | some np => some (np.replace "uploads/" "")
                | none => post.cover }
          (.ok post', posts.map (fun p => if p.id = req.paramId then post' else p), r.2)

/-- `GET /post` (`User.js:177-188`): `Post.find().sort({createdAt: -1})
.limit(20)` — all posts sorted by `createdAt` descending, first 20. -/
def getPosts (posts : List PostDoc) : List PostDoc :=
  (posts.mergeSort (fun a b => decide (b.createdAt ≤ a.createdAt))).take 20

/-- `GET /post/:id` (`User.js:191-203`): a falsy `id` parameter answers
`404 {message: "Post not found"}`; otherwise the result of
`Post.findById(id)` is sent as JSON as-is — `null` (here `ok none`) when
no post has that id. -/
def getPostById (paramId : Option Nat) (posts : List PostDoc) :
    Resp (Option PostDoc) :=
  match paramId with
  | none => .err 404 "Post not found"
  | some id => .ok (posts.find? (fun p => p.id = id))

/-- Authentication failure of a request carrying `cookieToken` under `key`:
the cookie is absent, or its value does not verify. -/
def authFails (cookieToken : Option Jwt) (key : String) : Prop :=
  match cookieToken with
  | none => True
  | some t => jwtVerify t key = none

/-- The attributes of the `token` cookie set by a register/login response,
when it succeeded. -/
def respCookieOptions : Resp AuthOk → Option CookieOptions
  | .ok a => some a.cookieOptions
  | .err _ _ => none

/-- C1: For every valid claim C = \x7buserId, userName\x7d and secret key K,
verifying the token issued for C under K succeeds and returns the claim C:
the identity payload round-trips through issue then verify under the same
key. -/
theorem token_roundtrip (c : Claim) (key : String) :
    jwtVerify (jwtSign c key) key = some c := by
  simp [jwtVerify, jwtSign]

/-- C2: The ownership authorization on post mutation returns Allow exactly
when the identity's userId equals the resource's recorded author, is
Forbidden in every other case, and admits no third outcome. -/
theorem authorize_allow_iff (i a : String) :
    (authorize i a = .allow ↔ i = a) ∧
    (authorize i a = .forbidden ↔ i ≠ a) ∧
    (authorize i a = .allow ∨ authorize i a = .forbidden) := by
  by_cases h : a = i <;> simp [authorize, h, eq_comm, Ne]
  exact fun hc => h hc.symm

/-- C3 counterexample: `POST /post` with no token cookie does NOT fail
with the typed MissingToken error (`403 "Token is missing"`); the thrown
`Error("Token is missing")` is caught and collapsed into the untyped
`500 "Internal server error"`. -/
theorem postPost_missing_token_untyped :
    (postPost ⟨"t", "s", "c", none, none⟩ "k" [] ⟨[]⟩ 0).1
      = .err 500 "Internal server error" ∧
    (postPost ⟨"t", "s", "c", none, none⟩ "k" [] ⟨[]⟩ 0).1
      ≠ .err 403 "Token is missing" := by
  constructor <;> decide

/-- C3 amended: on `GET /profile` and `PUT /post/:id`, a missing cookie
fails with `403 "Token is missing"` and a tampered/garbage cookie with
`403 "Invalid token"`; on `POST /post` a tampered cookie fails with
`403 "Invalid token"`, but a missing cookie is surfaced as the generic
`500 "Internal server error"`. -/
theorem protected_endpoints_auth_errors (key : String) (posts : List PostDoc)
    (fs : Fs) (now : Nat) (pr : PutReq) (cr : PostReq) (t : Jwt)
    (h : jwtVerify t key = none) :
    profile none key = .err 403 "Token is missing" ∧
    profile (some t) key = .err 403 "Invalid token" ∧
    (putPost { pr with cookieToken := none } key posts fs).1
      = .err 403 "Token is missing" ∧
    (putPost { pr with cookieToken := some t } key posts fs).1
      = .err 403 "Invalid token" ∧
    (postPost { cr with cookieToken := some t } key posts fs now).1
      = .err 403 "Invalid token" ∧
    (postPost { cr with cookieToken := none } key posts fs now).1
      = .err 500 "Internal server error" := by
  refine ⟨rfl, ?_, ?_, ?_, ?_, ?_⟩ <;> simp [profile, putPost, postPost, h]

/-- C3 amended witness at a concrete garbage token. -/
theorem protected_endpoints_auth_errors_witness :
    profile none "k" = .err 403 "Token is missing" ∧
    profile (some ⟨⟨"1", "alice"⟩, 0⟩) "k" = .err 403 "Invalid token" ∧
    (putPost ⟨1, "t", "s", "c", none, none⟩ "k" [] ⟨[]⟩).1
      = .err 403 "Token is missing" ∧
    (putPost ⟨1, "t", "s", "c", none, some ⟨⟨"1", "alice"⟩, 0⟩⟩ "k" [] ⟨[]⟩).1
      = .err 403 "Invalid token" ∧
    (postPost ⟨"t", "s", "c", none, some ⟨⟨"1", "alice"⟩, 0⟩⟩ "k" [] ⟨[]⟩ 0).1
      = .err 403 "Invalid token" ∧
    (postPost ⟨"t", "s", "c", none, none⟩ "k" [] ⟨[]⟩ 0).1
      = .err 500 "Internal server error" :=
  protected_endpoints_auth_errors "k" [] ⟨[]⟩ 0
    ⟨1, "t", "s", "c", none, none⟩ ⟨"t", "s", "c", none, none⟩
    ⟨⟨"1", "alice"⟩, 0⟩ (by decide)

/-- C4: when the verified identity is not the recorded author of the
addressed post, `PUT /post/:id` answers `403 "You are not the author of
this post"` and the post store — hence every field of the post — is
unchanged. -/
theorem putPost_forbidden_unchanged (req : PutReq) (key : String)
    (posts : List PostDoc) (fs : Fs) (t : Jwt) (info : Claim) (P : PostDoc)
    (ht : req.cookieToken = some t)
    (hv : jwtVerify t key = some info)
    (hf : posts.find? (fun p => p.id = req.paramId) = some P)
    (hne : P.author ≠ info.userId) :
    (putPost req key posts fs).1
      = .err 403 "You are not the author of this post" ∧
    (putPost req key posts fs).2.1 = posts := by
  unfold putPost
  simp [ht, hv, hf, authorize, hne]

/-- C4 witness: user 1 attempts to update a post authored by user 2. -/
theorem putPost_forbidden_unchanged_witness :
    (putPost ⟨1, "nt", "ns", "nc", none, some (jwtSign ⟨"1", "alice"⟩ "k")⟩
        "k" [⟨1, "t", "s", "c", none, "2", 0⟩] ⟨[]⟩).1
      = .err 403 "You are not the author of this post" ∧
    (putPost ⟨1, "nt", "ns", "nc", none, some (jwtSign ⟨"1", "alice"⟩ "k")⟩
        "k" [⟨1, "t", "s", "c", none, "2", 0⟩] ⟨[]⟩).2.1
      = [⟨1, "t", "s", "c", none, "2", 0⟩] :=
  putPost_forbidden_unchanged _ _ _ _ _ ⟨"1", "alice"⟩ ⟨1, "t", "s", "c", none, "2", 0⟩
    rfl (by decide) (by decide) (by decide)

/-- C5: when the verified identity IS the recorded author, `PUT /post/:id`
succeeds; the returned (and saved) post carries the request's new title
while its author is unchanged. -/
theorem putPost_owner_update (req : PutReq) (key : String)
    (posts : List PostDoc) (fs : Fs) (t : Jwt) (info : Claim) (P : PostDoc)
    (ht : req.cookieToken = some t)
    (hv : jwtVerify t key = some info)
    (hf : posts.find? (fun p => p.id = req.paramId) = some P)
    (heq : P.author = info.userId) :
    ∃ p', (putPost req key posts fs).1 = .ok p' ∧
      p'.title = req.title ∧ p'.author = P.author ∧
      (putPost req key posts fs).2.1
        = posts.map (fun p => if p.id = req.paramId then p' else p) := by
  unfold putPost
  simp [ht, hv, hf, authorize, heq]

/-- C5 witness: user 1 updates their own post's title. -/
theorem putPost_owner_update_witness :
    ∃ p', (putPost ⟨1, "nt", "ns", "nc", none, some (jwtSign ⟨"1", "alice"⟩ "k")⟩
        "k" [⟨1, "t", "s", "c", none, "1", 0⟩] ⟨[]⟩).1 = .ok p' ∧
      p'.title = "nt" ∧ p'.author = "1" ∧
      (putPost ⟨1, "nt", "ns", "nc", none, some (jwtSign ⟨"1", "alice"⟩ "k")⟩
        "k" [⟨1, "t", "s", "c", none, "1", 0⟩] ⟨[]⟩).2.1
        = [⟨1, "t", "s", "c", none, "1", 0⟩].map (fun p => if p.id = 1 then p' else p) :=
  putPost_owner_update _ _ _ _ _ ⟨"1", "alice"⟩ ⟨1, "t", "s", "c", none, "1", 0⟩
    rfl (by decide) (by decide) (by decide)

/-- C6: of the two token-issuing endpoints, only `POST /register` sets the
`token` cookie HTTP-only; a successful `POST /login` sets it with Express's
default options — `httpOnly = false`, no `sameSite` — so the login token IS
readable by client script, contradicting the source's own comment
"Setting token as HTTP-only cookie" above the call. -/
theorem login_cookie_not_httpOnly :
    respCookieOptions (login "alice" "pw" "k" [⟨1, "alice", bcryptHash "pw"⟩])
      = some ⟨false, none⟩ ∧
    respCookieOptions ((register "bob" "pw" false "k" []).1)
      = some ⟨true, some "strict"⟩ := by
  constructor <;> rfl

/-- C7 counterexample: a `PUT /post/:id` request that carries an uploaded
file but NO token cookie fails authentication with `403 "Token is missing"`
— yet the handler has already renamed the uploaded file, an observable
side effect performed before authentication. -/
theorem putPost_renames_before_auth :
    (putPost ⟨1, "t", "s", "c", some ⟨"a.png", "uploads/tmp1"⟩, none⟩
        "k" [] ⟨[]⟩).1 = .err 403 "Token is missing" ∧
    (putPost ⟨1, "t", "s", "c", some ⟨"a.png", "uploads/tmp1"⟩, none⟩
        "k" [] ⟨[]⟩).2.2 = ⟨[("uploads/tmp1", "uploads/tmp1.png")]⟩ ∧
    (putPost ⟨1, "t", "s", "c", some ⟨"a.png", "uploads/tmp1"⟩, none⟩
        "k" [] ⟨[]⟩).2.2 ≠ ⟨[]⟩ := by
  refine ⟨?_, ?_, ?_⟩ <;> decide

/-- C7 amended: the authentication step itself never mutates the post
store; a `POST /post` request that fails authentication has no observable
effect at all, and a `PUT /post/:id` request that fails authentication has
none either — UNLESS it carries an uploaded file, which the handler
renames before the token check. -/
theorem auth_failure_effects (preq : PutReq) (creq : PostReq) (key : String)
    (posts : List PostDoc) (fs : Fs) (now : Nat)
    (hput : authFails preq.cookieToken key)
    (hpost : authFails creq.cookieToken key) :
    (putPost preq key posts fs).2.1 = posts ∧
    (preq.file = none → (putPost preq key posts fs).2.2 = fs) ∧
    (postPost creq key posts fs now).2.1 = posts ∧
    (postPost creq key posts fs now).2.2 = fs := by
  unfold authFails at hput hpost
  refine ⟨?_, ?_, ?_, ?_⟩ <;>
    [skip; intro hfile; skip; skip] <;>
    cases hp : preq.cookieToken <;> cases hc : creq.cookieToken <;>
    simp_all [putPost, postPost, uploadRename]

/-- C7 amended witness: missing-token requests against both handlers. -/
theorem auth_failure_effects_witness :
    (putPost ⟨1, "t", "s", "c", none, none⟩ "k" [] ⟨[]⟩).2.1 = [] ∧
    ((⟨1, "t", "s", "c", none, none⟩ : PutReq).file = none →
      (putPost ⟨1, "t", "s", "c", none, none⟩ "k" [] ⟨[]⟩).2.2 = ⟨[]⟩) ∧
    (postPost ⟨"t", "s", "c", none, none⟩ "k" [] ⟨[]⟩ 0).2.1 = [] ∧
    (postPost ⟨"t", "s", "c", none, none⟩ "k" [] ⟨[]⟩ 0).2.2 = ⟨[]⟩ :=
  auth_failure_effects ⟨1, "t", "s", "c", none, none⟩ ⟨"t", "s", "c", none, none⟩
    "k" [] ⟨[]⟩ 0 trivial trivial

/-- C8 counterexample: registering a userName that already exists answers
the generic `400 "Error registering user"` — byte-for-byte the same
response produced for an unrelated internal failure (a bcrypt error), so
the duplicate case is NOT surfaced with a typed DuplicateUserName reason;
the single catch collapses every failure into one generic error. -/
theorem register_duplicate_untyped :
    (register "alice" "pw" false "k" [⟨1, "alice", bcryptHash "x"⟩]).1
      = .err 400 "Error registering user" ∧
    (register "bob" "pw2" true "k" []).1
      = (register "alice" "pw" false "k" [⟨1, "alice", bcryptHash "x"⟩]).1 := by
  constructor <;> rfl

/-- C8 amended: registration with a userName already present fails (status
400, generic message "Error registering user") and creates no second
Identity — the user store is unchanged — but the failure is not typed. -/
theorem register_duplicate_no_insert (userName password key : String)
    (users : List UserDoc)
    (h : users.any (fun u => u.userName = userName) = true) :
    (register userName password false key users).1
      = .err 400 "Error registering user" ∧
    (register userName password false key users).2 = users := by
  simp [register, h]

/-- C8 amended witness: re-registering "alice". -/
theorem register_duplicate_no_insert_witness :
    (register "alice" "pw" false "k" [⟨1, "alice", bcryptHash "x"⟩]).1
      = .err 400 "Error registering user" ∧
    (register "alice" "pw" false "k" [⟨1, "alice", bcryptHash "x"⟩]).2
      = [⟨1, "alice", bcryptHash "x"⟩] :=
  register_duplicate_no_insert "alice" "pw" "k" [⟨1, "alice", bcryptHash "x"⟩]
    (by decide)

/-- C9 counterexample: `GET /post/:id` with a well-formed id that matches
no post does NOT fail with NotFound — it succeeds, sending the `null`
result of `findById` as the JSON payload. -/
theorem getPostById_missing_ok_null :
    getPostById (some 2) [⟨1, "t", "s", "c", none, "1", 0⟩] = .ok none ∧
    getPostById (some 2) [⟨1, "t", "s", "c", none, "1", 0⟩]
      ≠ (.err 404 "Post not found" : Resp (Option PostDoc)) := by
  constructor <;> decide

/-- C9 amended: for every id matching no post in the store,
`GET /post/:id` succeeds with a null payload; the 404 branch fires only
when the id parameter itself is absent/falsy. -/
theorem getPostById_absent (id : Nat) (posts : List PostDoc)
    (h : posts.find? (fun p => p.id = id) = none) :
    getPostById (some id) posts = .ok none ∧
    getPostById none posts = .err 404 "Post not found" := by
  simp [getPostById, h]

/-- C9 amended witness: id 2 against a store holding only post 1. -/
theorem getPostById_absent_witness :
    getPostById (some 2) [⟨1, "t", "s", "c", none, "1", 0⟩] = .ok none ∧
    getPostById none [⟨1, "t", "s", "c", none, "1", 0⟩]
      = .err 404 "Post not found" :=
  getPostById_absent 2 [⟨1, "t", "s", "c", none, "1", 0⟩] (by decide)

/-- C10: for every state of the post store, `GET /post` returns the 20
most recently created posts: at most 20 posts (exactly `min 20 |store|`,
so every post when the store holds at most 20), ordered by `createdAt`
descending, drawn from the store as a sub-multiset, and no post left out
of the result was created later than any returned one. -/
theorem getPosts_limit_sorted (posts : List PostDoc) :
    (getPosts posts).length ≤ 20 ∧
    (getPosts posts).length = min 20 posts.length ∧
    List.Sorted (fun a b : PostDoc => b.createdAt ≤ a.createdAt)
      (getPosts posts) ∧
    List.Subperm (getPosts posts) posts ∧
    (∀ q ∈ posts, q ∉ getPosts posts →
      ∀ p ∈ getPosts posts, q.createdAt ≤ p.createdAt) := by
  have hperm := List.mergeSort_perm posts
    (fun a b => decide (b.createdAt ≤ a.createdAt))
  have hs := @List.sorted_mergeSort PostDoc
    (fun a b : PostDoc => decide (b.createdAt ≤ a.createdAt))
    (fun a b c hab hbc => by
      simp only [decide_eq_true_eq] at hab hbc ⊢; exact hbc.trans hab)
    (fun a b => by
      simp only [Bool.or_eq_true, decide_eq_true_eq]; exact le_total _ _)
    posts
  have hp : List.Pairwise (fun a b : PostDoc => b.createdAt ≤ a.createdAt)
      (posts.mergeSort (fun a b => decide (b.createdAt ≤ a.createdAt))) :=
    hs.imp (fun h => by simpa using h)
  refine ⟨?_, ?_, ?_, ?_, ?_⟩
  · simp [getPosts]
  · simp [getPosts, hperm.length_eq]
  · exact List.Pairwise.sublist (List.take_sublist 20 _) hp
  · exact (List.take_sublist 20 _).subperm.trans hperm.subperm
  · intro q hq hqn p hpmem
    simp only [getPosts] at hqn hpmem
    have hql : q ∈ posts.mergeSort (fun a b => decide (b.createdAt ≤ a.createdAt)) :=
      hperm.mem_iff.mpr hq
    have hpair := hp
    rw [← List.take_append_drop 20
      (posts.mergeSort (fun a b => decide (b.createdAt ≤ a.createdAt)))] at hpair hql
    have hdom := (List.pairwise_append.mp hpair).2.2
    rcases List.mem_append.mp hql with hqt | hqd
    · exact absurd hqt hqn
    · exact hdom p hpmem q hqd

end MernBlog
